import Mathlib

/-!
Verification of the inference gateway core (`gateway.py`, `app.py`).

The Python values flowing through the gateway are JSON-like: `None`, `bool`,
`int`, `float`, `str`, `list`, `dict`.  We embed them as `JVal`.  Floats are
embedded as exact rationals: every float literal appearing in the source
(`0.0`, `2.0`) is exactly representable, and the comparisons the code performs
on them are exact.  Booleans are a separate constructor: the Python code
explicitly excludes `bool` where it checks `isinstance(x, int)`, and our
embedding mirrors that by keeping the constructors disjoint.

Python `dict`s are embedded as association lists in insertion order.  A real
`dict` has unique keys; lookups are modelled by `pyGet`, which lets a later
binding shadow an earlier one so that it also matches the last-wins behaviour
of the dict comprehension in `app.py`'s header lowering.
-/

inductive JVal where
  | jnull
  | jbool (b : Bool)
  | jint (n : Int)
  | jfloat (q : Rat)
  | jstr (s : String)
  | jarr (xs : List JVal)
  | jobj (fields : List (String × JVal))

/-- Python `d.get(k)` on an association-list dict; the last binding wins. -/
def pyGet {α : Type} (d : List (String × α)) (k : String) : Option α :=
  match d with
  | [] => none
  | (k₁, v) :: rest =>
    match pyGet rest k with
    | some r => some r
    | none => if k₁ = k then some v else none

/-- Field lookup inside a JSON object value (`none` on non-objects). -/
def jGet (v : JVal) (k : String) : Option JVal :=
  match v with
  | .jobj fields => pyGet fields k
  | _ => none

/-- Python truthiness of an embedded value (`if x:`). -/
def pyTruthy : JVal → Bool
  | .jnull => false
  | .jbool b => b
  | .jint n => n != 0
  | .jfloat q => q != 0
  | .jstr s => s != ""
  | .jarr xs => !xs.isEmpty
  | .jobj fs => !fs.isEmpty

/-- Hexadecimal digit character, lowercase (used by `json.dumps` escapes and
by the UUID rendering). -/
def hexChar (n : Nat) : Char :=
  if n < 10 then Char.ofNat (48 + n) else Char.ofNat (87 + n)

/-- Four fixed hex digits of `n` (for a `\uXXXX` escape). -/
def hex4 (n : Nat) : String :=
  ⟨(List.range 4).map (fun i => hexChar (n / 16 ^ (3 - i) % 16))⟩

/-- The `\uXXXX` escape used by `json.dumps` with `ensure_ascii` (the default);
code points above `0xFFFF` become a surrogate pair. -/
def unicodeEscape (n : Nat) : String :=
  if n < 65536 then "\\u" ++ hex4 n
  else "\\u" ++ hex4 (55296 + (n - 65536) / 1024) ++ "\\u" ++ hex4 (56320 + (n - 65536) % 1024)

/-- Escape of one character per `json.dumps` defaults: `"` and `\` escaped,
the usual control shortcuts, and everything outside printable ASCII as
`\uXXXX`. -/
def escapeJsonChar (c : Char) : String :=
  if c = Char.ofNat 34 then "\\\""
  else if c = Char.ofNat 92 then "\\\\"
  else if c = Char.ofNat 8 then "\\b"
  else if c = Char.ofNat 9 then "\\t"
  else if c = Char.ofNat 10 then "\\n"
  else if c = Char.ofNat 12 then "\\f"
  else if c = Char.ofNat 13 then "\\r"
  else if c.toNat < 32 || c.toNat > 126 then unicodeEscape c.toNat
  else String.singleton c

/-- JSON string literal as produced by `json.dumps`. -/
def escapeJsonString (s : String) : String :=
  "\"" ++ String.join (s.data.map escapeJsonChar) ++ "\""

mutual

/-- Serialization of a value exactly as CPython's `json.dumps` with default
arguments: separators `", "` and `": "`, ASCII-escaped strings.  Floats do not
occur in any value this development ever serializes; their branch renders the
exact rational and stands in for CPython's shortest-round-trip float repr. -/
def jsonDumps : JVal → String
  | .jnull => "null"
  | .jbool true => "true"
  | .jbool false => "false"
  | .jint n => toString n
  | .jfloat q => toString q
  | .jstr s => escapeJsonString s
  | .jarr xs => "[" ++ jsonDumpsArr xs ++ "]"
  | .jobj fs => "\x7b" ++ jsonDumpsObj fs ++ "\x7d"

/-- Comma-separated serialization of array elements. -/
def jsonDumpsArr : List JVal → String
  | [] => ""
  | [x] => jsonDumps x
  | x :: y :: xs => jsonDumps x ++ ", " ++ jsonDumpsArr (y :: xs)

/-- Comma-separated serialization of object fields, in insertion order. -/
def jsonDumpsObj : List (String × JVal) → String
  | [] => ""
  | [(k, v)] => escapeJsonString k ++ ": " ++ jsonDumps v
  | (k, v) :: p :: fs => escapeJsonString k ++ ": " ++ jsonDumps v ++ ", " ++ jsonDumpsObj (p :: fs)

end

mutual

/-- Python `str(x)` as used by the f-string `f"Echo: {prompt}"`.  Faithful for
strings (identity), `None`, booleans and ints; containers and floats are
rendered in a repr-like style that approximates CPython (single-quoted inner
strings without CPython's quote-choice or non-ASCII rules).  Every theorem
below only ever applies this to a string value. -/
def pyStr : JVal → String
  | .jstr s => s
  | .jnull => "None"
  | .jbool true => "True"
  | .jbool false => "False"
  | .jint n => toString n
  | .jfloat q => toString q
  | .jarr xs => "[" ++ pyReprArr xs ++ "]"
  | .jobj fs => "\x7b" ++ pyReprObj fs ++ "\x7d"

/-- Python `repr(x)`, as `str` recursively applies it inside containers. -/
def pyRepr : JVal → String
  | .jstr s => "\x27" ++ s ++ "\x27"
  | .jnull => "None"
  | .jbool true => "True"
  | .jbool false => "False"
  | .jint n => toString n
  | .jfloat q => toString q
  | .jarr xs => "[" ++ pyReprArr xs ++ "]"
  | .jobj fs => "\x7b" ++ pyReprObj fs ++ "\x7d"

/-- Comma-separated repr of list elements. -/
def pyReprArr : List JVal → String
  | [] => ""
  | [x] => pyRepr x
  | x :: y :: xs => pyRepr x ++ ", " ++ pyReprArr (y :: xs)

/-- Comma-separated repr of dict items. -/
def pyReprObj : List (String × JVal) → String
  | [] => ""
  | [(k, v)] => "\x27" ++ k ++ "\x27: " ++ pyRepr v
  | (k, v) :: p :: fs => "\x27" ++ k ++ "\x27: " ++ pyRepr v ++ ", " ++ pyReprObj (p :: fs)

end

/-- The module constant `MODEL_NAME = "echo"` of `gateway.py`. -/
def MODEL_NAME : String := "echo"

/-- The module constant `ALLOWED_FIELDS` of `gateway.py`. -/
def ALLOWED_FIELDS : List String :=
  ["messages", "stream", "max_tokens", "model", "temperature", "stop"]

/-!
Request validation and normalization (`gateway.py` lines 25-77).
-/

/-- Is an optional fetched value a Python `str`?  (`isinstance(x, str)`; a
missing key gives `None`, which is not a `str`.) -/
def isStrOpt : Option JVal → Bool
  | some (.jstr _) => true
  | _ => false

/-- The per-message condition of the `messages` loop in
`validate_request_body`: the element is a dict whose `role` and `content` are
strings. -/
def msgOk (m : JVal) : Bool :=
  match m with
  | .jobj f => isStrOpt (pyGet f "role") && isStrOpt (pyGet f "content")
  | _ => false

/-- Check 1 of `validate_request_body`: `messages` fetched with `.get` must be
a list, and every element must pass `msgOk`. -/
def messagesFieldOk (body : List (String × JVal)) : Bool :=
  match pyGet body "messages" with
  | some (.jarr msgs) => msgs.all msgOk
  | _ => false

/-- Check 2: `stream`, if present, must be a bool. -/
def streamFieldOk (body : List (String × JVal)) : Bool :=
  match pyGet body "stream" with
  | none => true
  | some (.jbool _) => true
  | some _ => false

/-- Check 3: `max_tokens`, if present, must be an int (not a bool — both
`isinstance(mt, int)` and the explicit `isinstance(mt, bool)` exclusion of the
source are captured by the disjoint constructors) in `[1, 128000]`. -/
def maxTokensFieldOk (body : List (String × JVal)) : Bool :=
  match pyGet body "max_tokens" with
  | none => true
  | some (.jint n) => 1 ≤ n && n ≤ 128000
  | some _ => false

/-- Check 4: `model`, if present, must be a str. -/
def modelFieldOk (body : List (String × JVal)) : Bool :=
  match pyGet body "model" with
  | none => true
  | some (.jstr _) => true
  | some _ => false

/-- Check 5: `temperature`, if present, must be an int or float (not a bool)
with `0.0 <= t <= 2.0`. -/
def temperatureFieldOk (body : List (String × JVal)) : Bool :=
  match pyGet body "temperature" with
  | none => true
  | some (.jint n) => 0 ≤ n && n ≤ 2
  | some (.jfloat q) => 0 ≤ q && q ≤ 2
  | some _ => false

/-- Check 6: `stop`, if present, must be a str or a list of str. -/
def stopFieldOk (body : List (String × JVal)) : Bool :=
  match pyGet body "stop" with
  | none => true
  | some (.jstr _) => true
  | some (.jarr xs) => xs.all (fun x => isStrOpt (some x))
  | some _ => false

/-- The error dict `{"error": kind}` returned by `validate_request_body`. -/
def errBody (kind : String) : JVal := .jobj [("error", .jstr kind)]

/-- Embedding of `gateway.validate_request_body`: returns the error dict of
the first failing check (in source order) or `none` when the body is valid. -/
def validate_request_body (body : List (String × JVal)) : Option JVal :=
  if ¬ messagesFieldOk body then some (errBody "invalid_messages")
  else if ¬ streamFieldOk body then some (errBody "invalid_stream")
  else if ¬ maxTokensFieldOk body then some (errBody "invalid_max_tokens")
  else if ¬ modelFieldOk body then some (errBody "invalid_model")
  else if ¬ temperatureFieldOk body then some (errBody "invalid_temperature")
  else if ¬ stopFieldOk body then some (errBody "invalid_stop")
  else none

/-- Python `dict.setdefault(k, v)`: appends `(k, v)` only when `k` is absent. -/
def setdefault (d : List (String × JVal)) (k : String) (v : JVal) : List (String × JVal) :=
  match pyGet d k with
  | some _ => d
  | none => d ++ [(k, v)]

/-- Embedding of `gateway.normalize_request_body`: keep only the recognised
fields, then default `model` to `MODEL_NAME` and `stream` to `False`. -/
def normalize_request_body (body : List (String × JVal)) : List (String × JVal) :=
  let out := body.filter (fun p => ALLOWED_FIELDS.contains p.1)
  setdefault (setdefault out "model" (.jstr MODEL_NAME)) "stream" (.jbool false)

/-!
Request identity (`gateway.py` lines 84-99) and `app.py`'s header lowering.
-/

/-- One nibble of the rendered UUID.  `r` stands for the 128 random bits drawn
by `uuid.uuid4()`; per RFC 4122 the constructor forces nibble 12 (the version)
to `4` and the top two bits of nibble 16 (the variant) to `10`. -/
def uuidNibble (r : Nat) (pos : Nat) : Nat :=
  if pos = 12 then 4
  else if pos = 16 then 8 + r / 16 ^ (31 - pos) % 4
  else r / 16 ^ (31 - pos) % 16

/-- A dash-free group of the rendered UUID: `len` hex digits starting at
nibble `start`. -/
def uuidGroup (r : Nat) (start len : Nat) : List Char :=
  (List.range len).map (fun i => hexChar (uuidNibble r (start + i)))

/-- Embedding of `str(uuid.uuid4())`, parameterized by the 128 random bits
`r`: the canonical 8-4-4-4-12 lowercase hex rendering. -/
def uuid4_string (r : Nat) : String :=
  ⟨uuidGroup r 0 8 ++ '-' :: uuidGroup r 8 4 ++ '-' :: uuidGroup r 12 4 ++
    '-' :: uuidGroup r 16 4 ++ '-' :: uuidGroup r 20 12⟩

/-- One iteration of the loop in `resolve_request_id`: the header value under
`k` when it is present and truthy (a nonempty string), else `none`. -/
def headerValueIfTruthy (headers : List (String × String)) (k : String) : Option String :=
  match pyGet headers k with
  | some v => if v = "" then none else some v
  | none => none

/-- Embedding of `gateway.resolve_request_id`; `rand` is the randomness
consumed by `uuid.uuid4()` when no usable header exists. -/
def resolve_request_id (headers : List (String × String)) (rand : Nat) : String :=
  match headerValueIfTruthy headers "x-request-id" with
  | some v => v
  | none =>
    match headerValueIfTruthy headers "request-id" with
    | some v => v
    | none => uuid4_string rand

/-- Python `str.lower()` character by character.  `Char.toLower` lowers
exactly the ASCII uppercase range; HTTP header names are ASCII, so this
matches `k.lower()` on every input the handler sees. -/
def strLower (s : String) : String :=
  ⟨s.data.map Char.toLower⟩

/-- The header-lowering dict comprehension of `app.chat_completions`
(`{k.lower(): v for k, v in request.headers.items()}`). -/
def lower_headers (raw : List (String × String)) : List (String × String) :=
  raw.map (fun p => (strLower p.1, p.2))

/-- Python `msg.get("role") == "user"`-style comparison: an arbitrary fetched
value compared with a string literal is `True` exactly for the equal string. -/
def pyEqStr (v : Option JVal) (s : String) : Bool :=
  match v with
  | some (.jstr t) => t = s
  | _ => false

/-- The loop of `extract_prompt` over `reversed(messages)`, on the already
reversed element list.  `none` models an uncaught `AttributeError` (a message
element is not a dict, so it has no `.get`). -/
def extractFromRev : List JVal → Option JVal
  | [] => some (.jstr "")
  | m :: rest =>
    match m with
    | .jobj f =>
      if pyEqStr (pyGet f "role") "user" then some ((pyGet f "content").getD (.jstr ""))
      else extractFromRev rest
    | _ => none

/-- Embedding of `gateway.extract_prompt` on the request body dict.  The
result is the prompt value (`body.get("content", "")` is returned unchanged,
so it need not be a string); `none` models an uncaught exception: `reversed()`
over a non-sequence raises `TypeError`, and iterating a nonempty `str` or
`dict` yields elements without `.get` (`AttributeError`). -/
def extract_prompt (body : List (String × JVal)) : Option JVal :=
  match (pyGet body "messages").getD (.jarr []) with
  | .jarr xs => extractFromRev xs.reverse
  | .jstr s => if s = "" then some (.jstr "") else none
  | .jobj fs => if fs.isEmpty then some (.jstr "") else none
  | _ => none

/-!
Token counting and response building (`gateway.py` lines 102-156).
-/

/-- Embedding of `gateway.count_tokens`: `max(1, len(text) // 4)`.  `len` on a
Python `str` counts code points, as `String.length` does. -/
def count_tokens (text : String) : Nat :=
  max 1 (text.length / 4)

/-- Embedding of `gateway.build_response`; `created` stands for the value of
`int(time.time())` at the moment of the call. -/
def build_response (request_id content prompt : String) (created : Int) : JVal :=
  .jobj
    [("id", .jstr request_id),
     ("object", .jstr "chat.completion"),
     ("created", .jint created),
     ("model", .jstr MODEL_NAME),
     ("choices", .jarr
       [.jobj
         [("index", .jint 0),
          ("message", .jobj [("role", .jstr "assistant"), ("content", .jstr content)]),
          ("finish_reason", .jstr "stop")]]),
     ("usage", .jobj
       [("prompt_tokens", .jint (count_tokens prompt)),
        ("completion_tokens", .jint (count_tokens content)),
        ("total_tokens", .jint (count_tokens prompt + count_tokens content))])]

/-- The `delta` dict of `build_sse_chunk`: holds a `content` key exactly when
`content` is not `None`. -/
def chunk_delta (content : Option String) : List (String × JVal) :=
  match content with
  | some c => [("content", .jstr c)]
  | none => []

/-- The chunk dict built by `gateway.build_sse_chunk` before serialization. -/
def build_sse_chunk_json (request_id : String) (content : Option String)
    (finish_reason : Option String) (created : Int) : JVal :=
  .jobj
    [("id", .jstr request_id),
     ("object", .jstr "chat.completion.chunk"),
     ("created", .jint created),
     ("model", .jstr MODEL_NAME),
     ("choices", .jarr
       [.jobj
         [("index", .jint 0),
          ("delta", .jobj (chunk_delta content)),
          ("finish_reason",
            match finish_reason with
            | some f => .jstr f
            | none => .jnull)]])]

/-- Embedding of `gateway.build_sse_chunk`: one SSE frame
`f"data: {json.dumps(chunk)}\n\n"`. -/
def build_sse_chunk (request_id : String) (content : Option String)
    (finish_reason : Option String) (created : Int) : String :=
  "data: " ++ jsonDumps (build_sse_chunk_json request_id content finish_reason created) ++ "\n\n"

/-!
Echo mode (`gateway.py` lines 163-172).
-/

/-- Embedding of `gateway.echo_response`: `f"Echo: {prompt}"`. -/
def echo_response (prompt : String) : String :=
  "Echo: " ++ prompt

/-- Embedding of the async generator `gateway.echo_stream` as the list of
frames it yields, in order; `t1` and `t2` stand for the two
`int(time.time())` readings. -/
def echo_stream (prompt request_id : String) (t1 t2 : Int) : List String :=
  [build_sse_chunk request_id (some (echo_response prompt)) none t1,
   build_sse_chunk request_id none (some "stop") t2,
   "data: [DONE]\n\n"]

/-!
Backend forwarding (`gateway.py` lines 179-209) and the error taxonomy the
`app.py` exception handlers translate (`app.py` lines 30-75).
-/

/-- The closed taxonomy of backend-transport errors, one constructor per
`app.py` exception handler: `httpx.HTTPStatusError`, `httpx.ConnectError`,
`httpx.TimeoutException`, `httpx.ReadError`, `httpx.WriteError` and the
gateway's own `BackendJSONError`.  The `detail` strings stand for `str(exc)`
where the handler interpolates it. -/
inductive BackendError where
  | httpStatus (code : Nat)
  | connect (detail : String)
  | timeout
  | read (detail : String)
  | write (detail : String)
  | nonJSON
  deriving DecidableEq

/-- What the network run against the backend did, seen from the gateway: a
response with its HTTP status and the result of JSON-parsing its body
(`none` when `resp.json()` raises `ValueError`), or a transport failure. -/
inductive BackendOutcome where
  | reply (status : Nat) (parsedBody : Option JVal)
  | connectFail (detail : String)
  | timeoutFail
  | readFail (detail : String)
  | writeFail (detail : String)

/-- Success statuses, as `httpx.Response.raise_for_status` passes them. -/
def is2xx (status : Nat) : Bool :=
  200 ≤ status && status ≤ 299

/-- Embedding of the non-streaming branch of `gateway.forward_to_backend`:
`raise_for_status()` turns a non-2xx reply into `HTTPStatusError`, transport
failures propagate, and an unparseable 2xx body raises `BackendJSONError`. -/
def forward_to_backend_result (bo : BackendOutcome) : Except BackendError JVal :=
  match bo with
  | .reply status parsed =>
    if ¬ is2xx status then .error (.httpStatus status)
    else
      match parsed with
      | some v => .ok v
      | none => .error .nonJSON
  | .connectFail d => .error (.connect d)
  | .timeoutFail => .error .timeout
  | .readFail d => .error (.read d)
  | .writeFail d => .error (.write d)

/-- Opening the streamed POST in `_stream_from_backend` up to its
`raise_for_status()`: same failures as the non-streaming path except that no
JSON parse happens. -/
def forward_stream_open (bo : BackendOutcome) : Except BackendError Unit :=
  match bo with
  | .reply status _ => if ¬ is2xx status then .error (.httpStatus status) else .ok ()
  | .connectFail d => .error (.connect d)
  | .timeoutFail => .error .timeout
  | .readFail d => .error (.read d)
  | .writeFail d => .error (.write d)

/-- Python `s.startswith(pre)`, as a character-list prefix test. -/
def pyStartsWith (s pre : String) : Bool :=
  pre.data.isPrefixOf s.data

/-- The SSE passthrough loop of `gateway._stream_from_backend`, as a function
of the lines `resp.aiter_lines()` yields: keep the non-empty lines starting
with `data:`, each with a blank line appended. -/
def stream_from_backend (lines : List String) : List String :=
  match lines with
  | [] => []
  | line :: rest =>
    if line != "" && pyStartsWith line "data:" then (line ++ "\n\n") :: stream_from_backend rest
    else stream_from_backend rest

/-- The six exception handlers of `app.py`, as the translation of each
`BackendError` into an HTTP status and JSON body. -/
def backend_error_response (e : BackendError) : Nat × JVal :=
  match e with
  | .httpStatus code => (502, .jobj [("error", .jstr ("Backend error: " ++ toString code))])
  | .connect d => (502, .jobj [("error", .jstr ("Backend connection failed: " ++ d))])
  | .timeout => (504, .jobj [("error", .jstr "Backend request timed out")])
  | .read d => (502, .jobj [("error", .jstr ("Backend read failed: " ++ d))])
  | .write d => (502, .jobj [("error", .jstr ("Backend write failed: " ++ d))])
  | .nonJSON => (502, .jobj [("error", .jstr "Backend returned non-JSON response")])

/-!
The route handler `app.chat_completions` (`app.py` lines 102-130), embedded as
a pure function of the request, the configuration and the backend's behaviour.
-/

/-- The body of the HTTP response the handler returns. -/
inductive HResponse where
  | jsonResp (body : JVal)
  | streamResp (frames : List String)

/-- A completed run of the handler: the resolved correlation id, the JSON body
POSTed to the backend (`none` in echo mode — no backend call at all), the
response, and the `X-Request-ID` response header the handler attaches. -/
structure HandlerResult where
  request_id : String
  sentToBackend : Option (List (String × JVal))
  response : HResponse
  xRequestId : String

/-- Outcome of one request.  `backendFailure` is a transport error raised by
the non-streaming forward — it propagates to the `app.py` exception handlers,
which map it through `backend_error_response`; the POSTed body is recorded
because the network call already happened.  `streamAborted` is a failure at
streamed-POST open time: it surfaces only while the `StreamingResponse` is
already being consumed, truncating the stream.  `crash` is an uncaught Python
exception (HTTP 500): a non-dict body, or `extract_prompt` on a malformed
`messages` value. -/
inductive HandlerOutcome where
  | ok (r : HandlerResult)
  | backendFailure (request_id : String) (sent : List (String × JVal)) (e : BackendError)
  | streamAborted (request_id : String) (sent : List (String × JVal)) (e : BackendError)
  | crash

/-- Embedding of `app.chat_completions`.  `backend_url` is the module constant
`BACKEND_URL`; `rand` the randomness for `uuid.uuid4()`; `t1`, `t2` the clock
readings; `bo` what the backend network call does when one is made; `blines`
the lines a streamed backend response yields.  The handler lowers the header
names, resolves the correlation id once, reads `stream` with Python
truthiness, and branches on echo versus forwarding mode — it calls neither
`validate_request_body` nor `normalize_request_body` (`gateway.py` defines
them, but `app.py` does not import them), and in forwarding mode it POSTs the
inbound body unchanged. -/
def chat_completions (backend_url : String) (bodyJ : JVal)
    (rawHeaders : List (String × String)) (rand : Nat) (t1 t2 : Int)
    (bo : BackendOutcome) (blines : List String) : HandlerOutcome :=
  match bodyJ with
  | .jobj body =>
    let headers := lower_headers rawHeaders
    let request_id := resolve_request_id headers rand
    let streamVal := (pyGet body "stream").getD (.jbool false)
    if backend_url = "" then
      match extract_prompt body with
      | none => .crash
      | some promptVal =>
        let prompt := pyStr promptVal
        if pyTruthy streamVal then
          .ok ⟨request_id, none, .streamResp (echo_stream prompt request_id t1 t2), request_id⟩
        else
          .ok ⟨request_id, none,
            .jsonResp (build_response request_id (echo_response prompt) prompt t1), request_id⟩
    else
      if pyTruthy streamVal then
        match forward_stream_open bo with
        | .ok _ => .ok ⟨request_id, some body, .streamResp (stream_from_backend blines), request_id⟩
        | .error e => .streamAborted request_id body e
      else
        match forward_to_backend_result bo with
        | .ok v => .ok ⟨request_id, some body, .jsonResp v, request_id⟩
        | .error e => .backendFailure request_id body e
  | _ => .crash

/-- The JSON body the handler POSTs to the backend during a run, when a
network call to the backend happens at all. -/
def sentBody : HandlerOutcome → Option (List (String × JVal))
  | .ok r => r.sentToBackend
  | .backendFailure _ sent _ => some sent
  | .streamAborted _ sent _ => some sent
  | .crash => none

/-!
Specification-side definitions.  These follow the wording of the spec and of
the claims, to be compared with the source-derived definitions above.
-/

/-- Modelled from the spec wording of the validator: run checks in a fixed
order and return the kind of the first failing one. -/
def firstFailingKind (checks : List (String × (List (String × JVal) → Bool)))
    (body : List (String × JVal)) : Option String :=
  match checks with
  | [] => none
  | (kind, chk) :: rest => if chk body then firstFailingKind rest body else some kind

/-- The spec's fixed check order: messages, stream, max_tokens, model,
temperature, stop. -/
def specValidationChecks : List (String × (List (String × JVal) → Bool)) :=
  [("invalid_messages", messagesFieldOk),
   ("invalid_stream", streamFieldOk),
   ("invalid_max_tokens", maxTokensFieldOk),
   ("invalid_model", modelFieldOk),
   ("invalid_temperature", temperatureFieldOk),
   ("invalid_stop", stopFieldOk)]

/-- The role of a well-typed message object. -/
def msgRole (m : JVal) : Option String :=
  match m with
  | .jobj f =>
    match pyGet f "role" with
    | some (.jstr s) => some s
    | _ => none
  | _ => none

/-- The content of a well-typed message object. -/
def msgContent (m : JVal) : Option String :=
  match m with
  | .jobj f =>
    match pyGet f "content" with
    | some (.jstr s) => some s
    | _ => none
  | _ => none

/-- Modelled from the claim wording for prompt extraction: scan from the last
message toward the first and return the content of the first message whose
role is `"user"`; the empty string when none exists. -/
def lastUserContent (msgs : List JVal) : String :=
  match msgs.reverse.find? (fun m => msgRole m == some "user") with
  | some m => (msgContent m).getD ""
  | none => ""

/-- An optional header value that `resolve_request_id` treats as missing:
absent, or present but empty. -/
def blankHeader (o : Option String) : Prop :=
  o = none ∨ o = some ""

/-- Lowercase hexadecimal digit. -/
def isHexDigitChar (c : Char) : Bool :=
  c.isDigit || ('a' ≤ c && c ≤ 'f')

/-- The shape required of a version-4 UUID rendering, following the claim: 36
characters in five dash-separated hex groups of sizes 8-4-4-4-12, the version
nibble rendered `4` and the variant nibble in `8`-`b`. -/
def uuid4Shaped (s : String) : Prop :=
  ∃ a b c d e : List Char,
    s = ⟨a ++ '-' :: b ++ '-' :: c ++ '-' :: d ++ '-' :: e⟩ ∧
    a.length = 8 ∧ b.length = 4 ∧ c.length = 4 ∧ d.length = 4 ∧ e.length = 12 ∧
    (∀ ch ∈ a ++ b ++ c ++ d ++ e, isHexDigitChar ch = true) ∧
    c.head? = some '4' ∧
    (∃ ch, d.head? = some ch ∧ (ch = '8' ∨ ch = '9' ∨ ch = 'a' ∨ ch = 'b'))

/-- The first element of the `choices` array of a response or chunk object. -/
def firstChoice (v : JVal) : Option JVal :=
  match jGet v "choices" with
  | some (.jarr (c :: _)) => some c
  | _ => none

/-- The `delta` object of a chunk's first choice. -/
def deltaOf (v : JVal) : Option JVal :=
  (firstChoice v).bind (fun c => jGet c "delta")

/-- The `finish_reason` of a response or chunk's first choice. -/
def finishReasonOf (v : JVal) : Option JVal :=
  (firstChoice v).bind (fun c => jGet c "finish_reason")

/-!
Helper lemmas shared by the claim theorems.
-/

theorem count_tokens_pos (t : String) : 1 ≤ count_tokens t :=
  Nat.le_max_left 1 _

theorem stream_from_backend_eq_filter (lines : List String) :
    stream_from_backend lines =
      (lines.filter (fun l => l != "" && pyStartsWith l "data:")).map (fun l => l ++ "\n\n") := by
  induction lines with
  | nil => rfl
  | cons l rest ih =>
    cases h : (l != "" && pyStartsWith l "data:") with
    | true => simp [stream_from_backend, List.filter_cons, h, ih]
    | false => simp [stream_from_backend, List.filter_cons, h, ih]

theorem uuidNibble_lt (r p : Nat) : uuidNibble r p < 16 := by
  unfold uuidNibble
  split
  · omega
  · split
    · have : r / 16 ^ (31 - p) % 4 < 4 := Nat.mod_lt _ (by omega)
      omega
    · exact Nat.mod_lt _ (by omega)

theorem hexChar_hex : ∀ n, n < 16 → isHexDigitChar (hexChar n) = true := by
  decide

theorem uuidGroup_mem_hex (r start len : Nat) :
    ∀ ch ∈ uuidGroup r start len, isHexDigitChar ch = true := by
  intro ch hch
  rcases List.mem_map.mp hch with ⟨i, _, hi⟩
  rw [← hi]
  exact hexChar_hex _ (uuidNibble_lt r (start + i))

/-!
Claim theorems.
-/

/-- C1 (code bug): the claim says every inbound body is checked by the request
validator before any network activity, and an invalid body is rejected with
the validator's error kind and causes no backend call.  The code never calls
`validate_request_body`: evaluated on the body `{"messages": "not-a-list"}` in
backend-forwarding mode, the validator (had it been called) rejects with
`invalid_messages`, yet the handler POSTs that very body to the backend. -/
theorem C1_invalid_body_forwarded :
    validate_request_body [("messages", .jstr "not-a-list")] = some (errBody "invalid_messages") ∧
    sentBody (chat_completions "http://backend" (.jobj [("messages", .jstr "not-a-list")]) [] 0 0 0
        (.reply 200 (some (.jobj []))) [])
      = some [("messages", .jstr "not-a-list")] :=
  ⟨rfl, rfl⟩

/-- C2 (code bug): the claim says the JSON body sent to the backend is the
normalized request.  The code never calls `normalize_request_body`: on the
body `{"messages": [], "bogus_field": 1}` the handler POSTs the raw inbound
body, which still carries `bogus_field` and lacks the `model`/`stream`
defaults that normalization would have produced. -/
theorem C2_raw_body_forwarded :
    sentBody (chat_completions "http://backend"
        (.jobj [("messages", .jarr []), ("bogus_field", .jint 1)]) [] 0 0 0
        (.reply 200 (some (.jobj []))) [])
      = some [("messages", .jarr []), ("bogus_field", .jint 1)] ∧
    normalize_request_body [("messages", .jarr []), ("bogus_field", .jint 1)]
      = [("messages", .jarr []), ("model", .jstr "echo"), ("stream", .jbool false)] ∧
    pyGet [("messages", JVal.jarr []), ("bogus_field", JVal.jint 1)] "bogus_field"
      = some (JVal.jint 1) ∧
    pyGet (normalize_request_body [("messages", .jarr []), ("bogus_field", .jint 1)]) "bogus_field"
      = none ∧
    pyGet [("messages", JVal.jarr []), ("bogus_field", JVal.jint 1)] "model" = none :=
  ⟨rfl, rfl, rfl, rfl, rfl⟩

/-- C3 counterexample: the claim says the resolved correlation id appears as
the `id` field of the JSON response body of every request.  In
backend-forwarding mode the body is the backend's JSON verbatim: with header
`X-Request-ID: test-42` and a backend reply `{"id": "zzz"}`, the handler
resolves the id `test-42` (and puts it in the response header), yet the
response body's `id` is `zzz`. -/
theorem C3_passthrough_body_id_differs :
    chat_completions "http://backend"
        (.jobj [("messages", .jarr [.jobj [("role", .jstr "user"), ("content", .jstr "Hi")]])])
        [("X-Request-ID", "test-42")] 0 0 0
        (.reply 200 (some (.jobj [("id", .jstr "zzz")]))) []
      = .ok ⟨"test-42",
             some [("messages", .jarr [.jobj [("role", .jstr "user"), ("content", .jstr "Hi")]])],
             .jsonResp (.jobj [("id", .jstr "zzz")]), "test-42"⟩ ∧
    jGet (.jobj [("id", .jstr "zzz")]) "id" = some (.jstr "zzz") ∧
    ("zzz" : String) ≠ "test-42" :=
  ⟨rfl, rfl, by decide⟩

/-- C4: every backend-transport error is mapped to a JSON body of shape
`{"error": message}`, with status 502 for `HttpStatus`, `Connect`, `Read`,
`Write` and `NonJSON` and 504 exactly for `Timeout`; and a 2xx backend
response whose body is not parseable JSON yields the `NonJSON` error. -/
theorem C4_backend_error_mapping :
    (∀ code, backend_error_response (.httpStatus code)
      = (502, .jobj [("error", .jstr ("Backend error: " ++ toString code))])) ∧
    (∀ d, backend_error_response (.connect d)
      = (502, .jobj [("error", .jstr ("Backend connection failed: " ++ d))])) ∧
    backend_error_response .timeout = (504, .jobj [("error", .jstr "Backend request timed out")]) ∧
    (∀ d, backend_error_response (.read d)
      = (502, .jobj [("error", .jstr ("Backend read failed: " ++ d))])) ∧
    (∀ d, backend_error_response (.write d)
      = (502, .jobj [("error", .jstr ("Backend write failed: " ++ d))])) ∧
    backend_error_response .nonJSON
      = (502, .jobj [("error", .jstr "Backend returned non-JSON response")]) ∧
    (∀ e : BackendError, ∃ msg, (backend_error_response e).2 = .jobj [("error", .jstr msg)]) ∧
    (∀ e : BackendError, (backend_error_response e).1 = 504 ↔ e = .timeout) ∧
    (∀ status, is2xx status = true →
      forward_to_backend_result (.reply status none) = .error .nonJSON) := by
  refine ⟨fun _ => rfl, fun _ => rfl, rfl, fun _ => rfl, fun _ => rfl, rfl, ?_, ?_, ?_⟩
  · intro e
    cases e <;> exact ⟨_, rfl⟩
  · intro e
    cases e <;> simp [backend_error_response]
  · intro status h
    simp [forward_to_backend_result, h]

/-- Witness for C4 at a concrete input: a 200 reply whose body fails JSON
parsing is the `NonJSON` error. -/
theorem C4_backend_error_mapping_witness :
    forward_to_backend_result (.reply 200 none) = .error .nonJSON :=
  C4_backend_error_mapping.2.2.2.2.2.2.2.2 200 (by decide)

/-- C7: for every prompt, `echo_stream` yields exactly three items in order —
a chunk whose delta carries `"Echo: " ++ prompt` with null finish reason, a
chunk with empty delta and finish reason `"stop"`, and the literal
`"data: [DONE]\n\n"` — and nothing else; as a total function on lists it
cannot fail mid-sequence. -/
theorem C7_echo_stream_frames (prompt request_id : String) (t1 t2 : Int) :
    echo_stream prompt request_id t1 t2 =
      [build_sse_chunk request_id (some ("Echo: " ++ prompt)) none t1,
       build_sse_chunk request_id none (some "stop") t2,
       "data: [DONE]\n\n"] ∧
    (echo_stream prompt request_id t1 t2).length = 3 ∧
    deltaOf (build_sse_chunk_json request_id (some ("Echo: " ++ prompt)) none t1)
      = some (.jobj [("content", .jstr ("Echo: " ++ prompt))]) ∧
    finishReasonOf (build_sse_chunk_json request_id (some ("Echo: " ++ prompt)) none t1)
      = some .jnull ∧
    deltaOf (build_sse_chunk_json request_id none (some "stop") t2) = some (.jobj []) ∧
    finishReasonOf (build_sse_chunk_json request_id none (some "stop") t2)
      = some (.jstr "stop") :=
  ⟨rfl, rfl, rfl, rfl, rfl, rfl⟩

/-- C8: backend-passthrough streaming re-emits exactly the non-empty lines
with the `data:` prefix, each unchanged with `"\n\n"` appended, drops every
other line, and appends no synthetic terminal frame: every emitted frame
stems from an input line, so in particular a backend stream with no `data:`
line produces no output at all. -/
theorem C8_passthrough_lines (lines : List String) :
    stream_from_backend lines =
      (lines.filter (fun l => l != "" && pyStartsWith l "data:")).map (fun l => l ++ "\n\n") ∧
    (∀ f ∈ stream_from_backend lines,
      ∃ l, l ∈ lines ∧ pyStartsWith l "data:" = true ∧ f = l ++ "\n\n") ∧
    ((∀ l ∈ lines, pyStartsWith l "data:" = false) → stream_from_backend lines = []) := by
  refine ⟨stream_from_backend_eq_filter lines, ?_, ?_⟩
  · intro f hf
    rw [stream_from_backend_eq_filter lines] at hf
    rcases List.mem_map.mp hf with ⟨l, hl, hfl⟩
    have hmem := List.mem_filter.mp hl
    refine ⟨l, hmem.1, ?_, hfl.symm⟩
    have := hmem.2
    simp only [Bool.and_eq_true] at this
    exact this.2
  · intro hnone
    rw [stream_from_backend_eq_filter lines]
    have hfil : lines.filter (fun l => l != "" && pyStartsWith l "data:") = [] := by
      rw [List.filter_eq_nil_iff]
      intro l hl
      simp [hnone l hl]
    rw [hfil]
    rfl

/-- Witness for C8 at a concrete input: a stream of keep-alive and non-SSE
lines yields nothing, and a concrete mixed stream keeps exactly its `data:`
lines. -/
theorem C8_passthrough_lines_witness :
    stream_from_backend ["", ": keep-alive", "event: x"] = [] ∧
    stream_from_backend ["data: a", "", "data: [DONE]"] = ["data: a\n\n", "data: [DONE]\n\n"] :=
  ⟨(C8_passthrough_lines ["", ": keep-alive", "event: x"]).2.2 (by decide),
   (C8_passthrough_lines ["data: a", "", "data: [DONE]"]).1.trans (by decide)⟩

/-- C9: `build_response` computes usage with `prompt_tokens` and
`completion_tokens` counted independently on prompt and content by
`count_tokens`, `total_tokens` their sum, where
`count_tokens t = max 1 (length t / 4)`, so all three counts are positive. -/
theorem C9_usage_counts (request_id content prompt : String) (created : Int) :
    jGet (build_response request_id content prompt created) "usage" =
      some (.jobj
        [("prompt_tokens", .jint (count_tokens prompt)),
         ("completion_tokens", .jint (count_tokens content)),
         ("total_tokens", .jint (count_tokens prompt + count_tokens content))]) ∧
    (∀ t : String, count_tokens t = max 1 (t.length / 4)) ∧
    1 ≤ count_tokens prompt ∧ 1 ≤ count_tokens content ∧
    1 ≤ count_tokens prompt + count_tokens content :=
  ⟨rfl, fun _ => rfl, count_tokens_pos prompt, count_tokens_pos content,
   Nat.le_trans (count_tokens_pos prompt) (Nat.le_add_right _ _)⟩

/-- C5: validation performs its checks in the fixed order messages, stream,
max_tokens, model, temperature, stop, returning the kind of the first failing
check; `max_tokens` must be a non-boolean integer in `[1, 128000]`;
`temperature` a non-boolean number in `[0.0, 2.0]` with both bounds inclusive
(exactly `2.0` is accepted); an empty messages list is valid. -/
theorem C5_validation_first_failure (body : List (String × JVal)) :
    validate_request_body body = (firstFailingKind specValidationChecks body).map errBody ∧
    validate_request_body [("messages", .jstr "not-a-list")] = some (errBody "invalid_messages") ∧
    validate_request_body [("messages", .jarr []), ("max_tokens", .jint 0)]
      = some (errBody "invalid_max_tokens") ∧
    validate_request_body [("messages", .jarr []), ("max_tokens", .jbool true)]
      = some (errBody "invalid_max_tokens") ∧
    validate_request_body [("messages", .jarr []), ("temperature", .jfloat 2)] = none ∧
    validate_request_body [("messages", .jarr []), ("temperature", .jint 3)]
      = some (errBody "invalid_temperature") ∧
    validate_request_body [("messages", .jarr []), ("temperature", .jbool true)]
      = some (errBody "invalid_temperature") ∧
    validate_request_body [("messages", .jarr [])] = none := by
  refine ⟨?_, rfl, rfl, rfl, rfl, rfl, rfl, rfl⟩
  unfold validate_request_body firstFailingKind specValidationChecks
  by_cases h1 : messagesFieldOk body = true <;>
    by_cases h2 : streamFieldOk body = true <;>
    by_cases h3 : maxTokensFieldOk body = true <;>
    by_cases h4 : modelFieldOk body = true <;>
    by_cases h5 : temperatureFieldOk body = true <;>
    by_cases h6 : stopFieldOk body = true <;>
    simp [firstFailingKind, h1, h2, h3, h4, h5, h6]

theorem isStrOpt_elim {o : Option JVal} (h : isStrOpt o = true) :
    ∃ s, o = some (JVal.jstr s) := by
  cases o with
  | none => simp [isStrOpt] at h
  | some v =>
    cases v with
    | jstr s => exact ⟨s, rfl⟩
    | jnull => simp [isStrOpt] at h
    | jbool b => simp [isStrOpt] at h
    | jint n => simp [isStrOpt] at h
    | jfloat q => simp [isStrOpt] at h
    | jarr xs => simp [isStrOpt] at h
    | jobj fs => simp [isStrOpt] at h

theorem msgOk_elim {m : JVal} (hm : msgOk m = true) :
    ∃ f r c, m = JVal.jobj f ∧ pyGet f "role" = some (JVal.jstr r) ∧
      pyGet f "content" = some (JVal.jstr c) := by
  cases m <;> simp only [msgOk, Bool.and_eq_true] at hm
  case jobj f =>
    obtain ⟨r, hrole⟩ := isStrOpt_elim hm.1
    obtain ⟨c, hcont⟩ := isStrOpt_elim hm.2
    exact ⟨f, r, c, rfl, hrole, hcont⟩
  all_goals exact absurd hm (by simp)

theorem extractFromRev_wellTyped (l : List JVal) (h : ∀ m ∈ l, msgOk m = true) :
    extractFromRev l =
      some (JVal.jstr
        (match l.find? (fun m => msgRole m == some "user") with
         | some m => (msgContent m).getD ""
         | none => "")) := by
  induction l with
  | nil => rfl
  | cons m rest ih =>
    obtain ⟨f, r, c, hm, hrole, hcont⟩ := msgOk_elim (h m (List.mem_cons_self m rest))
    subst hm
    have ihrest := ih (fun x hx => h x (List.mem_cons_of_mem _ hx))
    by_cases hr : r = "user"
    · subst hr
      have h1 : extractFromRev (JVal.jobj f :: rest)
          = some ((pyGet f "content").getD (JVal.jstr "")) := by
        simp [extractFromRev, pyEqStr, hrole]
      have h2 : List.find? (fun m => msgRole m == some "user") (JVal.jobj f :: rest)
          = some (JVal.jobj f) :=
        List.find?_cons_of_pos _ (by simp [msgRole, hrole])
      rw [h1, hcont, h2]
      simp [msgContent, hcont]
    · have h1 : extractFromRev (JVal.jobj f :: rest) = extractFromRev rest := by
        simp [extractFromRev, pyEqStr, hrole, hr]
      have h2 : List.find? (fun m => msgRole m == some "user") (JVal.jobj f :: rest)
          = List.find? (fun m => msgRole m == some "user") rest :=
        List.find?_cons_of_neg _ (by simp [msgRole, hrole, hr])
      rw [h1, ihrest, h2]

/-- C10: on a sequence of well-typed message objects, prompt extraction scans
from the last message toward the first, returns the content of the first one
whose role is `"user"`, and returns the empty string when no message has that
role (including the empty sequence). -/
theorem C10_extract_prompt (msgs : List JVal) (h : ∀ m ∈ msgs, msgOk m = true) :
    extract_prompt [("messages", JVal.jarr msgs)] = some (JVal.jstr (lastUserContent msgs)) := by
  have hrev : ∀ m ∈ msgs.reverse, msgOk m = true := fun m hm => h m (List.mem_reverse.mp hm)
  show extractFromRev msgs.reverse = _
  rw [extractFromRev_wellTyped msgs.reverse hrev]
  rfl

/-- Witness for C10 at a concrete input: of two user messages the later one
wins, and its content is returned. -/
theorem C10_extract_prompt_witness :
    extract_prompt [("messages", JVal.jarr
      [JVal.jobj [("role", JVal.jstr "user"), ("content", JVal.jstr "a")],
       JVal.jobj [("role", JVal.jstr "assistant"), ("content", JVal.jstr "x")],
       JVal.jobj [("role", JVal.jstr "user"), ("content", JVal.jstr "b")]])]
      = some (JVal.jstr "b") :=
  (C10_extract_prompt
    [JVal.jobj [("role", JVal.jstr "user"), ("content", JVal.jstr "a")],
     JVal.jobj [("role", JVal.jstr "assistant"), ("content", JVal.jstr "x")],
     JVal.jobj [("role", JVal.jstr "user"), ("content", JVal.jstr "b")]]
    (by decide)).trans rfl

theorem hexChar_variant : ∀ m, m < 4 →
    hexChar (8 + m) = '8' ∨ hexChar (8 + m) = '9' ∨ hexChar (8 + m) = 'a' ∨ hexChar (8 + m) = 'b' := by
  decide

/-- C6: request-identity resolution matches header names case-insensitively
(the handler lowercases them), checks `x-request-id` before `request-id`,
returns the first non-empty value found, and otherwise returns a freshly
generated 36-character version-4-UUID-format string rather than anything from
the headers. -/
theorem C6_resolve_request_id (raw : List (String × String)) (rand : Nat) :
    (∀ v, pyGet (lower_headers raw) "x-request-id" = some v → v ≠ "" →
      resolve_request_id (lower_headers raw) rand = v) ∧
    (blankHeader (pyGet (lower_headers raw) "x-request-id") →
      ∀ v, pyGet (lower_headers raw) "request-id" = some v → v ≠ "" →
        resolve_request_id (lower_headers raw) rand = v) ∧
    (blankHeader (pyGet (lower_headers raw) "x-request-id") →
      blankHeader (pyGet (lower_headers raw) "request-id") →
        resolve_request_id (lower_headers raw) rand = uuid4_string rand) ∧
    (uuid4_string rand).length = 36 ∧
    uuid4Shaped (uuid4_string rand) := by
  refine ⟨?_, ?_, ?_, ?_, ?_⟩
  · intro v hv hne
    simp [resolve_request_id, headerValueIfTruthy, hv, hne]
  · intro hblank v hv hne
    rcases hblank with hb | hb <;>
      simp [resolve_request_id, headerValueIfTruthy, hb, hv, hne]
  · intro h1 h2
    rcases h1 with hb1 | hb1 <;> rcases h2 with hb2 | hb2 <;>
      simp [resolve_request_id, headerValueIfTruthy, hb1, hb2]
  · show (uuidGroup rand 0 8 ++ '-' :: uuidGroup rand 8 4 ++ '-' :: uuidGroup rand 12 4 ++
      '-' :: uuidGroup rand 16 4 ++ '-' :: uuidGroup rand 20 12).length = 36
    simp [uuidGroup]
  · refine ⟨uuidGroup rand 0 8, uuidGroup rand 8 4, uuidGroup rand 12 4, uuidGroup rand 16 4,
      uuidGroup rand 20 12, rfl, by simp [uuidGroup], by simp [uuidGroup], by simp [uuidGroup],
      by simp [uuidGroup], by simp [uuidGroup], ?_, ?_, ?_⟩
    · intro ch hch
      simp only [List.mem_append] at hch
      rcases hch with (((h | h) | h) | h) | h <;> exact uuidGroup_mem_hex rand _ _ ch h
    · rfl
    · refine ⟨hexChar (uuidNibble rand 16), rfl, ?_⟩
      have hm : uuidNibble rand 16 = 8 + rand / 16 ^ 15 % 4 := rfl
      have h4 : rand / 16 ^ 15 % 4 < 4 := Nat.mod_lt _ (by norm_num)
      rw [hm]
      exact hexChar_variant _ h4

/-- Witness for C6 at concrete inputs: a mixed-case `X-Request-ID` header is
found, a `Request-Id` header is used when `x-request-id` is absent, and with
no headers the generated UUID is returned. -/
theorem C6_resolve_request_id_witness :
    resolve_request_id (lower_headers [("X-Request-ID", "test-42")]) 0 = "test-42" ∧
    resolve_request_id (lower_headers [("Request-Id", "alt-7")]) 0 = "alt-7" ∧
    resolve_request_id (lower_headers []) 0 = uuid4_string 0 :=
  ⟨(C6_resolve_request_id [("X-Request-ID", "test-42")] 0).1 "test-42" rfl (by decide),
   (C6_resolve_request_id [("Request-Id", "alt-7")] 0).2.1 (Or.inl rfl) "alt-7" rfl (by decide),
   (C6_resolve_request_id [] 0).2.2.1 (Or.inl rfl) (Or.inl rfl)⟩

/-- C3 (amended): the correlation id is resolved exactly once per request and
is always the value of the `X-Request-ID` response header; in echo mode that
same string is also the `id` field of the JSON response body and the `id`
field of every SSE chunk; in backend-forwarding mode the body and the stream
are passed through verbatim from the backend, so their `id` fields are
whatever the backend produced. -/
theorem C3_request_id_consistency (url : String) (fields : List (String × JVal))
    (raw : List (String × String)) (rand : Nat) (t1 t2 : Int)
    (bo : BackendOutcome) (blines : List String) (r : HandlerResult)
    (h : chat_completions url (.jobj fields) raw rand t1 t2 bo blines = .ok r) :
    r.request_id = resolve_request_id (lower_headers raw) rand ∧
    r.xRequestId = r.request_id ∧
    (url = "" →
      (∀ b, r.response = .jsonResp b → jGet b "id" = some (.jstr r.request_id)) ∧
      (∀ frames, r.response = .streamResp frames →
        ∃ p, frames = echo_stream p r.request_id t1 t2)) ∧
    (∀ idv c fr t, jGet (build_sse_chunk_json idv c fr t) "id" = some (.jstr idv)) := by
  simp only [chat_completions] at h
  split at h
  · split at h
    · exact absurd h (by simp)
    · split at h
      · injection h with h2
        subst h2
        refine ⟨rfl, rfl, fun _ => ⟨?_, ?_⟩, fun idv c fr t => rfl⟩
        · intro b hb
          exact HResponse.noConfusion hb
        · intro frames hf
          injection hf with hf2
          subst hf2
          exact ⟨_, rfl⟩
      · injection h with h2
        subst h2
        refine ⟨rfl, rfl, fun _ => ⟨?_, ?_⟩, fun idv c fr t => rfl⟩
        · intro b hb
          injection hb with hb2
          subst hb2
          rfl
        · intro frames hf
          exact HResponse.noConfusion hf
  · split at h
    · split at h
      · injection h with h2
        subst h2
        exact ⟨rfl, rfl, fun hu => absurd hu (by assumption), fun idv c fr t => rfl⟩
      · exact absurd h (by simp)
    · split at h
      · injection h with h2
        subst h2
        exact ⟨rfl, rfl, fun hu => absurd hu (by assumption), fun idv c fr t => rfl⟩
      · exact absurd h (by simp)

/-- Witness for C3 at a concrete input: a non-streaming echo-mode request with
header `X-Request-ID: test-42` produces a body whose `id` is `test-42`. -/
theorem C3_request_id_consistency_witness :
    jGet (build_response "test-42" (echo_response "Hi") "Hi" 0) "id"
      = some (JVal.jstr "test-42") :=
  ((C3_request_id_consistency ""
      [("messages", JVal.jarr [JVal.jobj [("role", JVal.jstr "user"), ("content", JVal.jstr "Hi")]])]
      [("X-Request-ID", "test-42")] 0 0 0 (.reply 200 none) []
      ⟨"test-42", none, .jsonResp (build_response "test-42" (echo_response "Hi") "Hi" 0), "test-42"⟩
      rfl).2.2.1 rfl).1 (build_response "test-42" (echo_response "Hi") "Hi" 0) rfl
